import Mathlib

/-!
Verification development for the `score_api` repository.

The Python sources (`lib/models.py`, `lib/areas_repository.py`,
`lib/geo_service.py`, `api/index.py`) are shallowly embedded below:

* Python `dict`s become insertion-ordered association lists (`PyDict`);
* Python numbers become `ℚ` for coordinate data (exact, computable) and `ℝ`
  for the transcendental Haversine mathematics;
* fallible Python code (exceptions) becomes `Except Err`;
* mutations of the process-wide repository singleton become explicit state
  passing: each operation returns the outcome together with the state of the
  repository after the call (in Python an escaping exception still leaves the
  in-place mutations of `self` behind, so the state is returned even when the
  outcome is an error);
* the Shapely library (an external dependency) is modelled by an exact
  rational point-in-polygon classifier and a rational
  nearest-point-on-boundary projection, following Shapely's documented
  point-set semantics (`contains` = interior, `touches` = boundary only);
* pydantic model construction is modelled by explicit validating
  constructors: a required field that is not passed makes construction fail,
  and a `dict` supplied for a `list[...]` field is rejected, as pydantic v2
  does.
-/

namespace ScoreApi

/-- Error values raised by the embedded code.  `valueError`, `indexError` are
Python exceptions; `clientError` models a non-404 S3 `ClientError` during
load; `persistenceFailure` models an S3 error during `put_object`;
`shapelyError` is the error Shapely raises for a 1- or 2-point ring;
`httpNotFound` / `httpConflict` are the `HTTPException(404)` /
`HTTPException(409)` of `api/index.py`; `validationMissingFields`,
`validationListType` and `validationOutOfRange` model pydantic
`ValidationError`s; `invalidRequest` models the request-level
"no filters" validation error. -/
inductive Err where
  | valueError
  | indexError
  | clientError
  | persistenceFailure
  | shapelyError
  | httpNotFound
  | httpConflict
  | validationMissingFields
  | validationListType
  | validationOutOfRange
  | invalidRequest
deriving DecidableEq

/-- A Python position: a list of numbers `[lng, lat, alt?]`. -/
abbrev Position := List ℚ

/-- Insertion-ordered string-keyed mapping, the model of a Python `dict`. -/
abbrev PyDict (α : Type) := List (String × α)

/-- Python `d.get(k)`. -/
def dictGet {α : Type} (d : PyDict α) (k : String) : Option α :=
  (d.find? (fun p => p.1 == k)).map Prod.snd

/-- Python `k in d`. -/
def dictHas {α : Type} (d : PyDict α) (k : String) : Bool :=
  d.any (fun p => p.1 == k)

/-- Python `d[k] = v`: overwrite in place (keeping the key's position) when
the key is present, append otherwise. -/
def dictSet {α : Type} (d : PyDict α) (k : String) (v : α) : PyDict α :=
  if dictHas d k then d.map (fun p => if p.1 == k then (k, v) else p)
  else d ++ [(k, v)]

/-- Python `del d[k]` (on a key-absent dict this deletes nothing; all call
sites in the source delete keys known to be present). -/
def dictDel {α : Type} (d : PyDict α) (k : String) : PyDict α :=
  d.filter (fun p => p.1 != k)

/-- Exception-propagating `map` over a list, the model of a Python loop or
comprehension that may raise: the first raising element aborts the whole
computation. -/
def exceptMap {α β : Type} (f : α → Except Err β) : List α → Except Err (List β)
  | [] => .ok []
  | x :: xs =>
    match f x with
    | .error e => .error e
    | .ok y =>
      match exceptMap f xs with
      | .error e => .error e
      | .ok ys => .ok (y :: ys)

/-! ## Shapely geometry model

`areas_repository._build_geometry` converts raw ring data to
`shapely.geometry.Polygon` / `MultiPolygon` values; `geo_service.analyze`
then uses `geometry.contains`, `geometry.touches` and
`geometry.boundary.project` / `interpolate`.  Coordinates are planar
`(x, y) = (lng, lat)` pairs. -/

/-- A planar point `(x, y)`. -/
abbrev Pt := ℚ × ℚ

/-- A Shapely polygon: one shell ring plus hole rings (rings are implicitly
closed; Shapely closes an unclosed ring itself). -/
structure SPolygon where
  shell : List Pt
  holes : List (List Pt)
deriving DecidableEq

/-- A Shapely `MultiPolygon`, as built by `_build_geometry`. -/
abbrev SMultiPolygon := List SPolygon

/-- The closed edge list of a ring: consecutive pairs plus the closing edge
back to the first vertex. -/
def ringSegments (r : List Pt) : List (Pt × Pt) :=
  match r with
  | [] => []
  | p0 :: _ => r.zip (r.drop 1 ++ [p0])

/-- Exact test that `p` lies on the segment from `a` to `b`: collinear and
inside the bounding box. -/
def onSeg (a b p : Pt) : Bool :=
  decide ((b.1 - a.1) * (p.2 - a.2) - (b.2 - a.2) * (p.1 - a.1) = 0) &&
  decide (min a.1 b.1 ≤ p.1) && decide (p.1 ≤ max a.1 b.1) &&
  decide (min a.2 b.2 ≤ p.2) && decide (p.2 ≤ max a.2 b.2)

/-- `p` lies on the (closed) ring `r`. -/
def onRing (r : List Pt) (p : Pt) : Bool :=
  (ringSegments r).any (fun s => onSeg s.1 s.2 p)

/-- One step of even–odd ray casting: does the edge `a`–`b` cross the
horizontal ray going right from `p`? -/
def crossesRay (a b p : Pt) : Bool :=
  (decide (p.2 < a.2) != decide (p.2 < b.2)) &&
  decide (p.1 < a.1 + (p.2 - a.2) * (b.1 - a.1) / (b.2 - a.2))

/-- Even–odd ray-casting interior test; only meaningful for points that are
not on the ring itself (the classifier checks `onRing` first). -/
def insideRing (r : List Pt) (p : Pt) : Bool :=
  ((ringSegments r).filter (fun s => crossesRay s.1 s.2 p)).length % 2 == 1

/-- Point location relative to a polygon. -/
inductive PtLoc where
  | inside
  | boundary
  | outside
deriving DecidableEq

/-- Classify a point against a polygon with holes: on the shell or on a hole
ring is `boundary`; strictly inside the shell and strictly inside some hole
is `outside`; strictly inside the shell and outside all holes is `inside`. -/
def classifyPoly (poly : SPolygon) (p : Pt) : PtLoc :=
  if onRing poly.shell p then .boundary
  else if insideRing poly.shell p then
    if poly.holes.any (fun h => onRing h p) then .boundary
    else if poly.holes.any (fun h => insideRing h p) then .outside
    else .inside
  else .outside

/-- Model of Shapely `MultiPolygon.contains(point)`: the point lies in the
interior. -/
def shContains (mp : SMultiPolygon) (p : Pt) : Bool :=
  mp.any (fun poly => classifyPoly poly p == .inside)

/-- Model of Shapely `MultiPolygon.touches(point)`: the point meets the
boundary but not the interior. -/
def shTouches (mp : SMultiPolygon) (p : Pt) : Bool :=
  mp.any (fun poly => classifyPoly poly p == .boundary) && !(shContains mp p)

/-- Squared planar distance. -/
def dist2 (p q : Pt) : ℚ :=
  (p.1 - q.1) * (p.1 - q.1) + (p.2 - q.2) * (p.2 - q.2)

/-- Nearest point to `p` on the segment `a`–`b` (orthogonal projection
clamped to the segment); exact over `ℚ`. -/
def closestOnSeg (a b p : Pt) : Pt :=
  let dx := b.1 - a.1
  let dy := b.2 - a.2
  let len2 := dx * dx + dy * dy
  if len2 = 0 then a
  else
    let t := ((p.1 - a.1) * dx + (p.2 - a.2) * dy) / len2
    let t := max 0 (min 1 t)
    (a.1 + t * dx, a.2 + t * dy)

/-- All boundary segments of a multipolygon (shells and holes), in Shapely's
traversal order. -/
def boundarySegments (mp : SMultiPolygon) : List (Pt × Pt) :=
  mp.flatMap (fun poly =>
    ringSegments poly.shell ++ poly.holes.flatMap ringSegments)

/-- Model of `geometry.boundary.interpolate(geometry.boundary.project(p))`:
the point of the boundary nearest to `p` in planar coordinates, ties going
to the earliest segment in traversal order.  On an empty boundary Shapely's
result is degenerate; the model returns `p` itself in that case (no call
site reaches it). -/
def nearestOnBoundary (mp : SMultiPolygon) (p : Pt) : Pt :=
  match boundarySegments mp with
  | [] => p
  | s0 :: rest =>
    rest.foldl
      (fun best s =>
        let c := closestOnSeg s.1 s.2 p
        if dist2 c p < dist2 best p then c else best)
      (closestOnSeg s0.1 s0.2 p)

/-! ## Distance mathematics (`geo_service._haversine` and friends)

The Python functions compute with IEEE floats; the embedding idealises them
over `ℝ`. -/

/-- Python `math.radians`. -/
noncomputable def pyRadians (x : ℝ) : ℝ := x * Real.pi / 180

/-- `EARTH_RADIUS_M` from `geo_service.py`. -/
def EARTH_RADIUS_M : ℝ := 6371000

/-- Embedding of `geo_service._haversine(lat1, lng1, lat2, lng2)`. -/
noncomputable def haversine (lat1 lng1 lat2 lng2 : ℝ) : ℝ :=
  let l1 := pyRadians lat1
  let g1 := pyRadians lng1
  let l2 := pyRadians lat2
  let g2 := pyRadians lng2
  let dlat := l2 - l1
  let dlng := g2 - g1
  let a := Real.sin (dlat / 2) ^ 2 +
    Real.cos l1 * Real.cos l2 * Real.sin (dlng / 2) ^ 2
  2 * EARTH_RADIUS_M * Real.arcsin (Real.sqrt a)

/-- Python `round(x, 2)` (up to the half-even tie rule, which no claim
exercises). -/
noncomputable def round2 (x : ℝ) : ℝ := (round (x * 100) : ℤ) / 100

/-- Embedding of `geo_service._nearest_border_distance_meters`: project the
target onto the boundary in planar coordinates, then take the Haversine
distance to the projected point (`nearest.y` is its latitude, `nearest.x`
its longitude). -/
noncomputable def nearest_border_distance_meters
    (targetLat targetLng : ℚ) (geometry : SMultiPolygon) : ℝ :=
  let nearest := nearestOnBoundary geometry (targetLng, targetLat)
  haversine (targetLat : ℝ) (targetLng : ℝ) (nearest.2 : ℝ) (nearest.1 : ℝ)

/-! ## `lib/models.py`: pydantic input models and their validation -/

/-- `PointInput`: the target of an analysis request (already validated:
`post_analyze` only ever receives pydantic-accepted requests). -/
structure PointInput where
  lat : ℚ
  lng : ℚ
deriving DecidableEq

/-- `PolygonInput.coordinates` (the `type` literal carries no information
beyond its fixed value and is dropped). -/
structure PolygonInput where
  coordinates : List (List Position)
deriving DecidableEq

/-- One ring check of `PolygonInput.validate_coordinates`: at least 4
positions, each of length at least 2 with `position[0]` (longitude) in
`[-180, 180]` and `position[1]` (latitude) in `[-90, 90]`. -/
def validRing (ring : List Position) : Bool :=
  decide (4 ≤ ring.length) &&
  ring.all (fun pos =>
    match pos with
    | lng :: lat :: _ =>
      decide (-180 ≤ lng) && decide (lng ≤ 180) &&
      decide (-90 ≤ lat) && decide (lat ≤ 90)
    | _ => false)

/-- pydantic validation of a `PolygonInput`: `coordinates` has
`min_length=1` and every ring passes `validate_coordinates`. -/
def polygonInputValid (p : PolygonInput) : Bool :=
  decide (1 ≤ p.coordinates.length) && p.coordinates.all validRing

/-- One character of the `^[a-z0-9_]+$` slug pattern. -/
def slugCharOk (c : Char) : Bool :=
  (decide (97 ≤ c.toNat) && decide (c.toNat ≤ 122)) ||
  (decide (48 ≤ c.toNat) && decide (c.toNat ≤ 57)) ||
  c == '_'

/-- The `^[a-z0-9_]+$` slug pattern of `AreaInput` / `AreaPatchInput`. -/
def slugValid (s : String) : Bool :=
  decide (1 ≤ s.length) && s.data.all slugCharOk

/-- `AreaInput`, the request body of `POST /api/v1/areas`. -/
structure AreaInput where
  name : String
  slug : String
  agencia : String
  relevancia : Int
  polygons : List PolygonInput
deriving DecidableEq

/-- pydantic validation of an `AreaInput`: slug pattern, `relevancia` in
`1..10`, `polygons` nonempty and polygon-valid. -/
def areaInputValid (a : AreaInput) : Bool :=
  slugValid a.slug &&
  decide (1 ≤ a.relevancia) && decide (a.relevancia ≤ 10) &&
  decide (1 ≤ a.polygons.length) && a.polygons.all polygonInputValid

/-- `AreaPatchInput`: all fields optional (absent fields are dropped by
`model_dump(exclude_none=True)` in `patch_area`). -/
structure AreaPatchInput where
  name : Option String
  slug : Option String
  agencia : Option String
  relevancia : Option Int
  polygons : Option (List PolygonInput)
deriving DecidableEq

/-- pydantic validation of an `AreaPatchInput`: provided fields satisfy
their constraints and at least one field is provided. -/
def areaPatchInputValid (p : AreaPatchInput) : Bool :=
  (match p.slug with | some s => slugValid s | none => true) &&
  (match p.relevancia with
   | some r => decide (1 ≤ r) && decide (r ≤ 10)
   | none => true) &&
  (match p.polygons with
   | some ps => decide (1 ≤ ps.length) && ps.all polygonInputValid
   | none => true) &&
  (p.name.isSome || p.slug.isSome || p.agencia.isSome ||
   p.relevancia.isSome || p.polygons.isSome)

/-- An apostrophe, kept as a named constant for building the literal
messages of the source. -/
def apos : String := String.singleton (Char.ofNat 39)

/-- `AreaResult`, the per-area element of the response model: `slug` and
`name` are required fields. -/
structure AreaResult where
  slug : String
  name : String
  is_in : Bool
  nearest_border_distance_meters : ℝ
  agencia : String
  relevancia : Int

/-- pydantic construction of an `AreaResult` from the keyword arguments the
caller passes (`none` = argument not passed): any missing required field
makes construction raise `ValidationError`. -/
def validateAreaResult (slug name : Option String) (is_in : Option Bool)
    (dist : Option ℝ) (agencia : Option String) (relevancia : Option Int) :
    Except Err AreaResult :=
  match slug, name, is_in, dist, agencia, relevancia with
  | some s, some n, some i, some d, some a, some r => .ok ⟨s, n, i, d, a, r⟩
  | _, _, _, _, _, _ => .error .validationMissingFields

/-- `AnalysisResponse`. -/
structure AnalysisResponse where
  results : List AreaResult
  errors : Option (List String)

/-- The value passed for the `results` field of `AnalysisResponse`: the
source passes a `dict`, the model requires a `list`. -/
inductive ResultsArg where
  | asDict (d : PyDict AreaResult)
  | asList (l : List AreaResult)

/-- pydantic construction of `AnalysisResponse`: pydantic v2 does not
coerce a `dict` to a `list[...]` field, so a dict argument raises
`ValidationError` (`Input should be a valid list`). -/
def validateAnalysisResponse (results : ResultsArg)
    (errors : Option (List String)) : Except Err AnalysisResponse :=
  match results with
  | .asList l => .ok ⟨l, errors⟩
  | .asDict _ => .error .validationListType

/-- `AnalysisRequest` after pydantic acceptance. -/
structure AnalysisRequest where
  target : PointInput
  areas : Option (List String)
  agencias : Option (List String)
deriving DecidableEq

/-- An `AnalysisRequest` body before validation. -/
structure RawAnalysisRequest where
  targetLat : ℚ
  targetLng : ℚ
  areas : Option (List String)
  agencias : Option (List String)
deriving DecidableEq

/-- pydantic validation of an `AnalysisRequest`: target latitude in
`[-90, 90]` and longitude in `[-180, 180]` (`PointInput`), provided lists
nonempty (`min_length=1`), and at least one of `areas` / `agencias` truthy
(`validate_target_filters`). -/
def validateAnalysisRequest (r : RawAnalysisRequest) :
    Except Err AnalysisRequest :=
  if decide (-90 ≤ r.targetLat) && decide (r.targetLat ≤ 90) &&
     decide (-180 ≤ r.targetLng) && decide (r.targetLng ≤ 180) then
    if (match r.areas with | some l => decide (1 ≤ l.length) | none => true) &&
       (match r.agencias with
        | some l => decide (1 ≤ l.length)
        | none => true) then
      if (r.areas.getD []).isEmpty && (r.agencias.getD []).isEmpty then
        .error .invalidRequest
      else .ok ⟨⟨r.targetLat, r.targetLng⟩, r.areas, r.agencias⟩
    else .error .validationOutOfRange
  else .error .validationOutOfRange

/-! ## `lib/areas_repository.py` -/

/-- A raw polygon dict as stored in `_areas_data` / durable storage: the
current format carries a `coordinates` key, the legacy format a `points`
key (`_extract_coordinates` checks them in that order). -/
structure PolyDict where
  coordinates : Option (List (List Position))
  points : Option (List Position)
deriving DecidableEq

/-- A raw area record (a Python dict).  `model_dump` always produces the
five keys; legacy stored records may miss `agencia` / `relevancia`, which
the source reads with `.get(..., default)`. -/
structure RawRecord where
  name : String
  slug : String
  agencia : Option String
  relevancia : Option Int
  polygons : List PolyDict
deriving DecidableEq

/-- `PolygonInput.model_dump()` restricted to the keys the repository
reads. -/
def PolygonInput.dump (p : PolygonInput) : PolyDict :=
  { coordinates := some p.coordinates, points := none }

/-- `AreaInput.model_dump()`. -/
def AreaInput.modelDump (a : AreaInput) : RawRecord :=
  { name := a.name
    slug := a.slug
    agencia := some a.agencia
    relevancia := some a.relevancia
    polygons := a.polygons.map PolygonInput.dump }

/-- `AreasRepository._extract_coordinates`: prefer `coordinates`; fall back
to legacy `points` (an `[lat, lng]` list becoming a single swapped ring);
otherwise raise `ValueError`.  A legacy point with fewer than two entries
raises `IndexError` inside the comprehension. -/
def extract_coordinates (pd : PolyDict) : Except Err (List (List Position)) :=
  match pd.coordinates with
  | some c => .ok c
  | none =>
    match pd.points with
    | some pts =>
      match exceptMap (fun pos =>
        match pos with
        | a :: b :: _ => Except.ok ([b, a] : Position)
        | _ => Except.error Err.indexError) pts with
      | .error e => .error e
      | .ok swapped => .ok [swapped]
    | none => .error .valueError

/-- `AreasRepository._ring_to_xy`: `(position[0], position[1])` for each
position; a short position raises `IndexError`. -/
def ring_to_xy (ring : List Position) : Except Err (List Pt) :=
  exceptMap (fun pos =>
    match pos with
    | a :: b :: _ => Except.ok ((a, b) : Pt)
    | _ => Except.error Err.indexError) ring

/-- Shapely's ring acceptance rule: a `LinearRing` needs at least 4
coordinates after the implicit closing (so 4 positions when the input
already repeats its first point at the end, 3 otherwise); an empty
coordinate list yields an empty polygon without error.  Out-of-range
coordinates are accepted as-is. -/
def shapelyRingOk (r : List Pt) : Bool :=
  r.length == 0 ||
  (if r.head? = r.getLast? then decide (4 ≤ r.length)
   else decide (3 ≤ r.length))

/-- Shapely `Polygon(shell=..., holes=...)` construction: raises when the
shell or any hole violates the ring rule. -/
def mkPolygon (shell : List Pt) (holes : List (List Pt)) :
    Except Err SPolygon :=
  if shapelyRingOk shell && holes.all shapelyRingOk then
    .ok ⟨shell, holes⟩
  else .error .shapelyError

/-- The per-polygon body of `AreasRepository._build_geometry`:
`coordinates[0]` is the shell (raising `IndexError` on an empty list),
the remaining rings are holes. -/
def buildPolyDict (pd : PolyDict) : Except Err SPolygon :=
  match extract_coordinates pd with
  | .error e => .error e
  | .ok [] => .error .indexError
  | .ok (shellRaw :: holesRaw) =>
    match ring_to_xy shellRaw with
    | .error e => .error e
    | .ok shell =>
      match exceptMap ring_to_xy holesRaw with
      | .error e => .error e
      | .ok holes => mkPolygon shell holes

/-- `AreasRepository._build_geometry`: a `MultiPolygon` from the raw
polygon dicts (an empty list yields an empty multipolygon without error). -/
def build_geometry (polygons : List PolyDict) : Except Err SMultiPolygon :=
  exceptMap buildPolyDict polygons

/-- The durable-storage object (`areas/areas.json` on MinIO) as seen by one
repository instance. -/
inductive StoreState where
  | unreachable
  | missing
  | content (m : PyDict RawRecord)
deriving DecidableEq

/-- The mutable fields of the `AreasRepository` singleton plus the storage
collaborator: `_areas_data`, `_geometries`, `_loaded`, the stored object,
and whether `put_object` succeeds. -/
structure RepoState where
  areasData : PyDict RawRecord
  geometries : PyDict SMultiPolygon
  loaded : Bool
  store : StoreState
  writable : Bool
deriving DecidableEq

/-- Outcome of a repository call: the returned value or escaped exception,
together with the repository state after the call (in Python an exception
leaves the already-performed in-place mutations behind). -/
structure MRes (α : Type) where
  result : Except Err α
  state : RepoState

/-- `AreasRepository._download_raw_areas`: `NoSuchKey`/`404` and an empty
body yield `{}`; any other `ClientError` propagates. -/
def download_raw_areas (s : RepoState) : Except Err (PyDict RawRecord) :=
  match s.store with
  | .unreachable => .error .clientError
  | .missing => .ok []
  | .content m => .ok m

/-- `AreasRepository._upload_raw_areas`: serialize `_areas_data` and
`put_object` it; on a read-only medium the `ClientError` propagates. -/
def upload_raw_areas (s : RepoState) : Except Err RepoState :=
  if s.writable then .ok { s with store := .content s.areasData }
  else .error .persistenceFailure

/-- The loop of `AreasRepository._hydrate_from_raw`: install each raw
record, then build and install its geometry; a failing build aborts with
the records installed so far (the raw entry of the failing record already
in place). -/
def hydrateGo : RepoState → List (String × RawRecord) → MRes Unit
  | s, [] => ⟨.ok (), s⟩
  | s, (slug, rec) :: rest =>
    let s1 := { s with areasData := dictSet s.areasData slug rec }
    match build_geometry rec.polygons with
    | .error e => ⟨.error e, s1⟩
    | .ok g =>
      hydrateGo { s1 with geometries := dictSet s1.geometries slug g } rest

/-- `AreasRepository._hydrate_from_raw`: reset both mappings, then install
every record with its compiled geometry. -/
def hydrate_from_raw (s : RepoState) (raw : PyDict RawRecord) : MRes Unit :=
  hydrateGo { s with areasData := [], geometries := [] } raw

/-- `AreasRepository._ensure_loaded`: a no-op when `_loaded` is set and
`_areas_data` is non-empty (Python truthiness); otherwise download and
hydrate, marking `_loaded` only on success. -/
def ensure_loaded (s : RepoState) : MRes Unit :=
  if s.loaded && !s.areasData.isEmpty then ⟨.ok (), s⟩
  else
    match download_raw_areas s with
    | .error e => ⟨.error e, s⟩
    | .ok raw =>
      let r := hydrate_from_raw s raw
      match r.result with
      | .error e => ⟨.error e, r.state⟩
      | .ok _ => ⟨.ok (), { r.state with loaded := true }⟩

/-- `AreasRepository.upsert`: ensure loaded, install the dumped record,
build and install its geometry (note the raw record is written before the
build), then persist the full mapping. -/
def upsert (s : RepoState) (area : AreaInput) : MRes Unit :=
  let r := ensure_loaded s
  match r.result with
  | .error e => ⟨.error e, r.state⟩
  | .ok _ =>
    let s := r.state
    let areaDict := area.modelDump
    let s1 := { s with areasData := dictSet s.areasData area.slug areaDict }
    match build_geometry areaDict.polygons with
    | .error e => ⟨.error e, s1⟩
    | .ok g =>
      let s2 := { s1 with geometries := dictSet s1.geometries area.slug g }
      match upload_raw_areas s2 with
      | .error e => ⟨.error e, s2⟩
      | .ok s3 => ⟨.ok (), s3⟩

/-- The merged record `patch` builds: each field of the change dict when
present, otherwise the current record's value (with `""` / `1` defaults for
records missing `agencia` / `relevancia`); the new slug defaults to the
`slug` argument. -/
def mergeRecord (slug : String) (current : RawRecord)
    (changes : AreaPatchInput) : RawRecord :=
  { name := changes.name.getD current.name
    slug := changes.slug.getD slug
    agencia := some (changes.agencia.getD (current.agencia.getD ""))
    relevancia := some (changes.relevancia.getD (current.relevancia.getD 1))
    polygons :=
      (changes.polygons.map (fun ps => ps.map PolygonInput.dump)).getD
        current.polygons }

/-- `AreasRepository.patch`: `None` for a missing slug; otherwise install
the merged record and its geometry under the new slug, drop the old slug's
entries when the slug changed, persist, and return the merged record. -/
def patch (s : RepoState) (slug : String) (changes : AreaPatchInput) :
    MRes (Option RawRecord) :=
  let r := ensure_loaded s
  match r.result with
  | .error e => ⟨.error e, r.state⟩
  | .ok _ =>
    let s := r.state
    match dictGet s.areasData slug with
    | none => ⟨.ok none, s⟩
    | some current =>
      let newSlug := (changes.slug).getD slug
      let updated := mergeRecord slug current changes
      let s1 := { s with areasData := dictSet s.areasData newSlug updated }
      match build_geometry updated.polygons with
      | .error e => ⟨.error e, s1⟩
      | .ok g =>
        let s2 := { s1 with geometries := dictSet s1.geometries newSlug g }
        let s3 :=
          if newSlug != slug then
            { s2 with areasData := dictDel s2.areasData slug
                      geometries := dictDel s2.geometries slug }
          else s2
        match upload_raw_areas s3 with
        | .error e => ⟨.error e, s3⟩
        | .ok s4 => ⟨.ok (some updated), s4⟩

/-- `AreasRepository.delete`: `False` for an unknown slug; otherwise drop
both entries, persist, and return `True`. -/
def delete (s : RepoState) (slug : String) : MRes Bool :=
  let r := ensure_loaded s
  match r.result with
  | .error e => ⟨.error e, r.state⟩
  | .ok _ =>
    let s := r.state
    if !(dictHas s.areasData slug) then ⟨.ok false, s⟩
    else
      let s1 := { s with areasData := dictDel s.areasData slug
                         geometries := dictDel s.geometries slug }
      match upload_raw_areas s1 with
      | .error e => ⟨.error e, s1⟩
      | .ok s2 => ⟨.ok true, s2⟩

/-- `AreasRepository.get_geometry`. -/
def get_geometry (s : RepoState) (slug : String) :
    MRes (Option SMultiPolygon) :=
  let r := ensure_loaded s
  match r.result with
  | .error e => ⟨.error e, r.state⟩
  | .ok _ => ⟨.ok (dictGet r.state.geometries slug), r.state⟩

/-- `AreasRepository.get_raw`. -/
def get_raw (s : RepoState) (slug : String) : MRes (Option RawRecord) :=
  let r := ensure_loaded s
  match r.result with
  | .error e => ⟨.error e, r.state⟩
  | .ok _ => ⟨.ok (dictGet r.state.areasData slug), r.state⟩

/-- Python `.strip().casefold()` (casefold modelled as lower-casing, which
agrees with it on the repository's ASCII data). -/
def pyNormalize (s : String) : String := s.trim.toLower

/-- `AreasRepository.find_slugs_by_agencias`: the slugs of the records
whose normalised `agencia` is among the normalised query names, in mapping
order. -/
def find_slugs_by_agencias (s : RepoState) (agencias : List String) :
    MRes (List String) :=
  let r := ensure_loaded s
  match r.result with
  | .error e => ⟨.error e, r.state⟩
  | .ok _ =>
    ⟨.ok ((r.state.areasData.filter (fun p =>
        agencias.any (fun a =>
          pyNormalize a == pyNormalize (p.2.agencia.getD "")))).map
        Prod.fst),
      r.state⟩

/-- `AreasRepository.exists`. -/
def existsSlug (s : RepoState) (slug : String) : MRes Bool :=
  let r := ensure_loaded s
  match r.result with
  | .error e => ⟨.error e, r.state⟩
  | .ok _ => ⟨.ok (dictHas r.state.areasData slug), r.state⟩

/-! ## `lib/geo_service.py` -/

/-- The literal message `f"Area '{slug}' nao encontrada."` appended by
`analyze` for an unknown slug (and used verbatim by the 404 handlers of
`api/index.py`). -/
def notFoundMsg (slug : String) : String :=
  "Area " ++ apos ++ slug ++ apos ++ " nao encontrada."

/-- The English message the specification text uses for the same
condition, for comparison with the source's message. -/
def specNotFoundMsg (slug : String) : String :=
  "Area " ++ apos ++ slug ++ apos ++ " not found."

/-- Python `list(dict.fromkeys(l))`: deduplicate keeping the first
occurrence of each element, preserving arrival order. -/
def pyDedup : List String → List String
  | [] => []
  | x :: xs => x :: pyDedup (xs.filter (fun y => y != x))
termination_by l => l.length
decreasing_by
  simp only [List.length_cons]
  exact Nat.lt_succ_of_le (List.length_filter_le _ _)

/-- The containment test of `analyze` (line
`geometry.contains(target) or geometry.touches(target)`). -/
def analyzeIsIn (geometry : SMultiPolygon) (target : Pt) : Bool :=
  shContains geometry target || shTouches geometry target

/-- The distance `analyze` reports for one area: `0` when the containment
test holds, otherwise the rounded nearest-border Haversine distance. -/
noncomputable def analyzeDist (geometry : SMultiPolygon)
    (targetLat targetLng : ℚ) : ℝ :=
  if analyzeIsIn geometry (targetLng, targetLat) then 0
  else round2 (nearest_border_distance_meters targetLat targetLng geometry)

/-- The per-slug loop of `analyze`: an absent geometry appends the
not-found message and continues; a present one builds an `AreaResult`
(passing neither `slug` nor `name`) and stores it in the results dict.  A
raised exception aborts the loop. -/
noncomputable def analyzeLoop (t : PointInput) :
    RepoState → List String → PyDict AreaResult → List String →
    MRes (PyDict AreaResult × List String)
  | s, [], results, errors => ⟨.ok (results, errors), s⟩
  | s, slug :: rest, results, errors =>
    let r := get_geometry s slug
    match r.result with
    | .error e => ⟨.error e, r.state⟩
    | .ok none =>
      analyzeLoop t r.state rest results (errors ++ [notFoundMsg slug])
    | .ok (some geometry) =>
      let r2 := get_raw r.state slug
      match r2.result with
      | .error e => ⟨.error e, r2.state⟩
      | .ok areaData =>
        let isIn := analyzeIsIn geometry (t.lng, t.lat)
        let dist := analyzeDist geometry t.lat t.lng
        let ag := (areaData.bind (fun rec => rec.agencia)).getD ""
        let rel := (areaData.bind (fun rec => rec.relevancia)).getD 1
        match validateAreaResult none none (some isIn) (some dist)
            (some ag) (some rel) with
        | .error e => ⟨.error e, r2.state⟩
        | .ok ar =>
          analyzeLoop t r2.state rest (dictSet results slug ar) errors

/-- `geo_service.analyze`: collect the requested slugs, extend with the
agency lookup when agencies were given, deduplicate preserving order, run
the per-slug loop, and construct the response model (passing the results
dict for the `results` list field). -/
noncomputable def analyze (s : RepoState) (request : AnalysisRequest) :
    MRes AnalysisResponse :=
  let areasList := (request.areas).getD []
  let slugs1 := if areasList.isEmpty then [] else areasList
  let agList := (request.agencias).getD []
  let ra : MRes (List String) :=
    if agList.isEmpty then ⟨.ok [], s⟩ else find_slugs_by_agencias s agList
  match ra.result with
  | .error e => ⟨.error e, ra.state⟩
  | .ok agSlugs =>
    let slugs := pyDedup (slugs1 ++ agSlugs)
    let lr := analyzeLoop request.target ra.state slugs [] []
    match lr.result with
    | .error e => ⟨.error e, lr.state⟩
    | .ok (results, errors) =>
      match validateAnalysisResponse (.asDict results)
          (if errors.isEmpty then none else some errors) with
      | .error e => ⟨.error e, lr.state⟩
      | .ok resp => ⟨.ok resp, lr.state⟩

/-! ## `api/index.py` -/

/-- Python truthiness of `patch_dict.get("slug")`. -/
def optStrTruthy : Option String → Bool
  | some v => v != ""
  | none => false

/-- `api.index.post_analyze`: validate the request body, then run
`analyze`. -/
noncomputable def post_analyze (s : RepoState) (raw : RawAnalysisRequest) :
    MRes AnalysisResponse :=
  match validateAnalysisRequest raw with
  | .error e => ⟨.error e, s⟩
  | .ok request => analyze s request

/-- `api.index.patch_area`: 404 when the slug is unknown, 409 when the
patch renames to a different, already-existing slug, otherwise delegate to
`AreasRepository.patch` (whose `None` is mapped to 404 again). -/
def patch_area (s : RepoState) (slug : String) (body : AreaPatchInput) :
    MRes RawRecord :=
  let r := existsSlug s slug
  match r.result with
  | .error e => ⟨.error e, r.state⟩
  | .ok exSlug =>
    let s := r.state
    if !exSlug then ⟨.error .httpNotFound, s⟩
    else
      let newSlug := body.slug
      let r2 :=
        if optStrTruthy newSlug && ((newSlug.getD "") != slug) then
          existsSlug s (newSlug.getD "")
        else ⟨.ok false, s⟩
      match r2.result with
      | .error e => ⟨.error e, r2.state⟩
      | .ok conflict =>
        if conflict then ⟨.error .httpConflict, r2.state⟩
        else
          let pr := patch r2.state slug body
          match pr.result with
          | .error e => ⟨.error e, pr.state⟩
          | .ok none => ⟨.error .httpNotFound, pr.state⟩
          | .ok (some updated) => ⟨.ok updated, pr.state⟩

/-! ## Predicates used by the validation claims -/

/-- A polygon list violating the geometry-build contract of the
specification: the list is empty, or some ring has fewer than 4 positions,
or some position carries a longitude outside `[-180, 180]` or a latitude
outside `[-90, 90]`. -/
def polygonsBad (ps : List PolygonInput) : Prop :=
  ps = [] ∨ ∃ p ∈ ps, ∃ ring ∈ p.coordinates,
    ring.length < 4 ∨ ∃ pos ∈ ring, ∃ lng lat rest, pos = lng :: lat :: rest ∧
      (lng < -180 ∨ 180 < lng ∨ lat < -90 ∨ 90 < lat)

/-! ## Concrete test data -/

/-- A 4-vertex square ring `(0,0)-(4,0)-(4,4)-(0,4)` in `[lng, lat]`
positions. -/
def sqShellRing : List Position := [[0, 0], [4, 0], [4, 4], [0, 4]]

/-- The square as a `PolygonInput`. -/
def sqPolygonInput : PolygonInput := { coordinates := [sqShellRing] }

/-- The square as a raw polygon dict. -/
def sqPolyDict : PolyDict :=
  { coordinates := some [sqShellRing], points := none }

/-- A stored area record for the square, slug `sq`. -/
def sqRecord : RawRecord :=
  { name := "Square", slug := "sq", agencia := some "ag",
    relevancia := some 5, polygons := [sqPolyDict] }

/-- The compiled square polygon. -/
def sqPoly : SPolygon := { shell := [(0, 0), (4, 0), (4, 4), (0, 4)], holes := [] }

/-- The compiled square geometry. -/
def sqGeom : SMultiPolygon := [sqPoly]

/-- A hydrated repository holding the square under `sq`, with writable
storage. -/
def readyState : RepoState :=
  { areasData := [("sq", sqRecord)], geometries := [("sq", sqGeom)],
    loaded := true, store := .content [("sq", sqRecord)], writable := true }

/-- The same repository on a read-only storage medium. -/
def roState : RepoState := { readyState with writable := false }

/-- A valid area input with a fresh slug `nu`. -/
def wArea : AreaInput :=
  { name := "New", slug := "nu", agencia := "ag2", relevancia := 3,
    polygons := [sqPolygonInput] }

/-- A patch body changing only the name. -/
def namePatch : AreaPatchInput :=
  { name := some "Renamed", slug := none, agencia := none,
    relevancia := none, polygons := none }

/-- A patch body renaming to slug `b`. -/
def renamePatch : AreaPatchInput :=
  { name := none, slug := some "b", agencia := none, relevancia := none,
    polygons := none }

/-- A second stored record under slug `b`. -/
def bRecord : RawRecord :=
  { name := "B", slug := "b", agencia := some "ag", relevancia := some 1,
    polygons := [sqPolyDict] }

/-- A hydrated repository holding both `sq` and `b`. -/
def twoState : RepoState :=
  { areasData := [("sq", sqRecord), ("b", bRecord)],
    geometries := [("sq", sqGeom), ("b", sqGeom)],
    loaded := true, store := .content [("sq", sqRecord), ("b", bRecord)],
    writable := true }

/-- An analysis request for the square with target `(lat 2, lng 2)`,
strictly inside it. -/
def insideReq : AnalysisRequest :=
  { target := ⟨2, 2⟩, areas := some ["sq"], agencias := none }

/-- An analysis request for an unknown slug. -/
def missingReq : AnalysisRequest :=
  { target := ⟨2, 2⟩, areas := some ["missing"], agencias := none }

/-- A ring with only three positions and longitudes above 180. -/
def badRing : List Position := [[200, 0], [201, 0], [201, 1]]

/-- A stored record carrying `badRing`, as a corrupt or legacy object in
durable storage might. -/
def badRecord : RawRecord :=
  { name := "Bad", slug := "bad", agencia := none, relevancia := none,
    polygons := [{ coordinates := some [badRing], points := none }] }

/-- The geometry the hydration path compiles for `badRecord`. -/
def badGeom : SMultiPolygon :=
  [{ shell := [(200, 0), (201, 0), (201, 1)], holes := [] }]

/-- A fresh (unhydrated) repository whose storage holds `badRecord`. -/
def b0State : RepoState :=
  { areasData := [], geometries := [], loaded := false,
    store := .content [("bad", badRecord)], writable := true }

/-- A polygon input whose single ring has only 3 positions. -/
def shortPolygonInput : PolygonInput :=
  { coordinates := [[[0, 0], [1, 0], [1, 1]]] }

/-- An area input carrying `shortPolygonInput`. -/
def shortArea : AreaInput :=
  { name := "Short", slug := "short", agencia := "ag", relevancia := 5,
    polygons := [shortPolygonInput] }

/-- A patch body carrying `shortPolygonInput`. -/
def shortPatch : AreaPatchInput :=
  { name := none, slug := none, agencia := none, relevancia := none,
    polygons := some [shortPolygonInput] }

/-- An in-range raw analysis request. -/
def okRaw : RawAnalysisRequest := ⟨10, 20, some ["sq"], none⟩

/-- The request `okRaw` validates to. -/
def okReq : AnalysisRequest := ⟨⟨10, 20⟩, some ["sq"], none⟩

/-- A raw analysis request with latitude 95, outside `[-90, 90]`. -/
def badRaw : RawAnalysisRequest := ⟨95, 0, some ["sq"], none⟩

/-! ## Helper lemmas -/

/-- Overwriting assignment on a dict whose key is present yields the new
value on lookup. -/
theorem dictGet_map_update {α : Type} (d : PyDict α) (k : String) (v : α)
    (h : dictHas d k = true) :
    dictGet (d.map (fun p => if p.1 == k then (k, v) else p)) k = some v := by
  induction d with
  | nil => simp [dictHas] at h
  | cons p rest ih =>
    rw [List.map_cons]
    by_cases hp : (p.1 == k) = true
    · rw [if_pos hp]
      unfold dictGet
      rw [List.find?_cons_of_pos _ (by simp)]
      rfl
    · rw [if_neg hp]
      have h2 : dictHas rest k = true := by
        simp only [dictHas, List.any_cons, hp, Bool.false_or] at h
        exact h
      unfold dictGet
      rw [List.find?_cons_of_neg _ (by simpa using hp)]
      exact ih h2

/-- Lookup skips a prefix that does not hold the key. -/
theorem dictGet_append_right {α : Type} (d l : PyDict α) (k : String)
    (h : dictHas d k = false) :
    dictGet (d ++ l) k = dictGet l k := by
  induction d with
  | nil => simp
  | cons p rest ih =>
    simp only [dictHas, List.any_cons, Bool.or_eq_false_iff] at h
    rw [List.cons_append]
    unfold dictGet
    rw [List.find?_cons_of_neg _ (by simpa using h.1)]
    exact ih (by simp [dictHas, h.2])

/-- Python `d[k] = v` makes `d.get(k)` return `v`, whether or not `k` was
present before. -/
theorem dictGet_dictSet_self {α : Type} (d : PyDict α) (k : String) (v : α) :
    dictGet (dictSet d k v) k = some v := by
  by_cases h : dictHas d k = true
  · simp only [dictSet, h, if_true]
    exact dictGet_map_update d k v h
  · have h2 : dictHas d k = false := by simpa using h
    simp only [dictSet, h2, Bool.false_eq_true, if_false]
    rw [dictGet_append_right d [(k, v)] k h2]
    unfold dictGet
    rw [List.find?_cons_of_pos _ (by simp)]
    rfl

/-- `_ensure_loaded` is a no-op on a hydrated repository with a non-empty
mapping. -/
theorem ensure_loaded_noop (s : RepoState) (hl : s.loaded = true)
    (hne : s.areasData ≠ []) : ensure_loaded s = ⟨.ok (), s⟩ := by
  cases hA : s.areasData with
  | nil => exact absurd hA hne
  | cons p rest => simp [ensure_loaded, hl, hA]

/-- `exceptMap` succeeds when every element does, and the produced values
inherit any pointwise property. -/
theorem exceptMap_ok_of_forall {α β : Type} (f : α → Except Err β)
    (P : β → Prop) (l : List α)
    (h : ∀ x ∈ l, ∃ y, f x = .ok y ∧ P y) :
    ∃ ys, exceptMap f l = .ok ys ∧ ∀ y ∈ ys, P y := by
  induction l with
  | nil => exact ⟨[], rfl, by simp⟩
  | cons x xs ih =>
    obtain ⟨y, hy, hPy⟩ := h x (List.mem_cons_self x xs)
    obtain ⟨ys, hys, hP⟩ := ih (fun z hz => h z (List.mem_cons_of_mem x hz))
    refine ⟨y :: ys, by simp [exceptMap, hy, hys], ?_⟩
    intro z hz
    rcases List.mem_cons.mp hz with h1 | h2
    · exact h1 ▸ hPy
    · exact hP z h2

/-- What a ring passing `validate_coordinates` guarantees: at least 4
positions, each with at least a longitude and a latitude entry. -/
theorem validRing_parts (ring : List Position) (h : validRing ring = true) :
    4 ≤ ring.length ∧ ∀ pos ∈ ring, ∃ a b rest, pos = a :: b :: rest := by
  simp only [validRing, Bool.and_eq_true, decide_eq_true_eq,
    List.all_eq_true] at h
  refine ⟨h.1, fun pos hp => ?_⟩
  have hx := h.2 pos hp
  match pos, hx with
  | a :: b :: rest, _ => exact ⟨a, b, rest, rfl⟩

/-- `_ring_to_xy` succeeds on rings of two-or-more-entry positions and
preserves length. -/
theorem ring_to_xy_ok (ring : List Position)
    (h : ∀ pos ∈ ring, ∃ a b rest, pos = a :: b :: rest) :
    ∃ xs, ring_to_xy ring = .ok xs ∧ xs.length = ring.length := by
  induction ring with
  | nil => exact ⟨[], rfl, rfl⟩
  | cons pos rest ih =>
    obtain ⟨a, b, r, hab⟩ := h pos (List.mem_cons_self pos rest)
    obtain ⟨xs, hxs, hlen⟩ := ih (fun z hz => h z (List.mem_cons_of_mem pos hz))
    refine ⟨(a, b) :: xs, ?_, by simp [hlen]⟩
    simp only [ring_to_xy] at hxs ⊢
    simp [exceptMap, hab, hxs]

/-- Shapely accepts every ring of at least 4 positions. -/
theorem shapelyRingOk_of_len (r : List Pt) (h : 4 ≤ r.length) :
    shapelyRingOk r = true := by
  simp only [shapelyRingOk, Bool.or_eq_true, beq_iff_eq]
  right
  split
  · simpa using h
  · simpa using Nat.le_of_succ_le h

/-- The geometry build succeeds on the dump of any pydantic-valid
`PolygonInput`. -/
theorem buildPolyDict_ok (p : PolygonInput)
    (hv : polygonInputValid p = true) :
    ∃ g, buildPolyDict p.dump = .ok g := by
  simp only [polygonInputValid, Bool.and_eq_true, decide_eq_true_eq,
    List.all_eq_true] at hv
  obtain ⟨hlen, hall⟩ := hv
  cases hc : p.coordinates with
  | nil => rw [hc] at hlen; simp at hlen
  | cons shellRaw holesRaw =>
    have hshell := validRing_parts shellRaw
      (hall shellRaw (hc ▸ List.mem_cons_self _ _))
    obtain ⟨shell, hsx, hslen⟩ := ring_to_xy_ok shellRaw hshell.2
    have hholes : ∀ r ∈ holesRaw,
        ∃ ys, ring_to_xy r = .ok ys ∧ 4 ≤ ys.length := by
      intro r hr
      have hvr := validRing_parts r (hall r (hc ▸ List.mem_cons_of_mem _ hr))
      obtain ⟨ys, hys, hyl⟩ := ring_to_xy_ok r hvr.2
      exact ⟨ys, hys, hyl ▸ hvr.1⟩
    obtain ⟨holes, hhx, hhP⟩ :=
      exceptMap_ok_of_forall ring_to_xy (fun ys => 4 ≤ ys.length) holesRaw
        hholes
    refine ⟨⟨shell, holes⟩, ?_⟩
    simp only [buildPolyDict, PolygonInput.dump, extract_coordinates, hc,
      hsx, hhx]
    simp only [mkPolygon]
    rw [if_pos]
    simp only [Bool.and_eq_true, List.all_eq_true]
    exact ⟨shapelyRingOk_of_len shell (hslen ▸ hshell.1),
      fun h hh => shapelyRingOk_of_len h (hhP h hh)⟩

/-- `_build_geometry` succeeds on the dump of any pydantic-valid
`AreaInput`: validated rings always satisfy Shapely's weaker
requirements. -/
theorem build_geometry_ok (a : AreaInput) (hv : areaInputValid a = true) :
    ∃ g, build_geometry a.modelDump.polygons = .ok g := by
  simp only [areaInputValid, Bool.and_eq_true, List.all_eq_true] at hv
  have hall := hv.2
  obtain ⟨g, hg, _⟩ :=
    exceptMap_ok_of_forall buildPolyDict (fun _ => True)
      (a.polygons.map PolygonInput.dump)
      (by
        intro x hx
        obtain ⟨p, hp, hpd⟩ := List.mem_map.mp hx
        obtain ⟨gp, hgp⟩ := buildPolyDict_ok p (hall p hp)
        exact ⟨gp, hpd ▸ hgp, trivial⟩)
  exact ⟨g, hg⟩

/-- A list with a failing element fails `List.all`. -/
theorem all_false_of_mem {α : Type} (f : α → Bool) (l : List α) (x : α)
    (hx : x ∈ l) (hf : f x = false) : l.all f = false := by
  cases h : l.all f
  · rfl
  · have hT := List.all_eq_true.mp h x hx
    rw [hf] at hT
    cases hT

/-- A ring that is too short or carries an out-of-range position fails
`validate_coordinates`. -/
theorem validRing_false_of_bad (ring : List Position)
    (h : ring.length < 4 ∨ ∃ pos ∈ ring, ∃ lng lat rest,
      pos = lng :: lat :: rest ∧
      (lng < -180 ∨ 180 < lng ∨ lat < -90 ∨ 90 < lat)) :
    validRing ring = false := by
  rcases h with hlen | ⟨pos, hpos, lng, lat, rest, hpe, hout⟩
  · simp [validRing, Nat.not_le.mpr hlen]
  · cases hvr : validRing ring
    · rfl
    · exfalso
      simp only [validRing, Bool.and_eq_true, decide_eq_true_eq,
        List.all_eq_true] at hvr
      have hp := hvr.2 pos hpos
      rw [hpe] at hp
      simp only [Bool.and_eq_true, decide_eq_true_eq] at hp
      rcases hout with h1 | h1 | h1 | h1 <;>
        linarith [hp.1.1.1, hp.1.1.2, hp.1.2, hp.2]

/-- A point is the first endpoint of some closed-ring segment of any ring
containing it. -/
theorem mem_ringSegments_fst (r : List Pt) (v : Pt) (hv : v ∈ r) :
    ∃ seg ∈ ringSegments r, seg.1 = v := by
  cases r with
  | nil => cases hv
  | cons p0 rest =>
    have hlen : (p0 :: rest).length ≤ (rest ++ [p0]).length := by simp
    have hmap := List.map_fst_zip (p0 :: rest) (rest ++ [p0]) hlen
    have hv2 : v ∈ (ringSegments (p0 :: rest)).map Prod.fst := by
      simpa [ringSegments, hmap] using hv
    obtain ⟨seg, hseg, hfst⟩ := List.mem_map.mp hv2
    exact ⟨seg, hseg, hfst⟩

/-- Every segment contains its own first endpoint. -/
theorem onSeg_self (a b : Pt) : onSeg a b a = true := by
  simp [onSeg]

/-- A ring vertex lies on the ring. -/
theorem onRing_of_mem (r : List Pt) (v : Pt) (hv : v ∈ r) :
    onRing r v = true := by
  obtain ⟨seg, hseg, hfst⟩ := mem_ringSegments_fst r v hv
  refine List.any_eq_true.mpr ⟨seg, hseg, ?_⟩
  rw [← hfst]
  exact onSeg_self seg.1 seg.2

/-- A shell vertex classifies as boundary. -/
theorem classifyPoly_boundary_of_mem_shell (poly : SPolygon) (v : Pt)
    (hv : v ∈ poly.shell) : classifyPoly poly v = .boundary := by
  simp [classifyPoly, onRing_of_mem poly.shell v hv]

/-! ## Claim theorems -/

/-- Claim C1: on a hydrated repository with writable storage, `upsert` of a
pydantic-valid area input never sees a failing geometry build (first
conjunct, which makes the fail-fast clause of the claim hold vacuously: the
source writes the raw record before building, but no valid input can make
the build raise), and on the always-taken success path it installs the raw
record and the compiled geometry under `area.slug` — overwriting any entry
already stored under that slug — and then persists the full raw mapping to
storage. -/
theorem upsert_spec (s : RepoState) (a : AreaInput)
    (hv : areaInputValid a = true) (hl : s.loaded = true)
    (hne : s.areasData ≠ []) (hw : s.writable = true) :
    (∀ e, build_geometry a.modelDump.polygons ≠ .error e) ∧
    ∃ g, build_geometry a.modelDump.polygons = .ok g ∧
      dictGet (dictSet s.areasData a.slug a.modelDump) a.slug =
        some a.modelDump ∧
      upsert s a = ⟨.ok (),
        { s with areasData := dictSet s.areasData a.slug a.modelDump
                 geometries := dictSet s.geometries a.slug g
                 store := .content (dictSet s.areasData a.slug a.modelDump) }⟩ := by
  obtain ⟨g, hg⟩ := build_geometry_ok a hv
  constructor
  · intro e he
    rw [hg] at he
    cases he
  · refine ⟨g, hg, dictGet_dictSet_self _ _ _, ?_⟩
    simp [upsert, ensure_loaded_noop s hl hne, hg, upload_raw_areas, hw]

/-- Witness for C1: `upsert_spec` applied to the concrete hydrated
repository `readyState` and the concrete valid input `wArea`. -/
theorem upsert_spec_witness :
    (∀ e, build_geometry wArea.modelDump.polygons ≠ .error e) ∧
    ∃ g, build_geometry wArea.modelDump.polygons = .ok g ∧
      dictGet (dictSet readyState.areasData wArea.slug wArea.modelDump)
          wArea.slug = some wArea.modelDump ∧
      upsert readyState wArea = ⟨.ok (),
        { readyState with
            areasData := dictSet readyState.areasData wArea.slug
              wArea.modelDump
            geometries := dictSet readyState.geometries wArea.slug g
            store := .content (dictSet readyState.areasData wArea.slug
              wArea.modelDump) }⟩ :=
  upsert_spec readyState wArea (by decide) rfl (List.cons_ne_nil _ _) rfl

/-- Counterexample for C2: on a read-only storage medium the mutation call
itself does fail — `upsert` propagates the persistence error instead of
logging and ignoring it as the claim states. -/
theorem upsert_persist_failure_cx :
    (upsert roState wArea).result = .error .persistenceFailure := by rfl

/-- Claim C2 as amended: when the save to durable storage fails after the
in-memory change was applied, the raw mapping and the geometry cache of
each of the three mutations (`upsert`, `patch`, `delete`) still reflect the
mutation — for `patch` with any body, rename included: the merged record
and its geometry sit under the new slug and, when the slug changed, the old
slug's entries are gone — but the mutation call propagates the persistence
failure to its caller rather than swallowing it. -/
theorem mutations_reflect_change_on_persist_failure
    (s : RepoState) (a : AreaInput) (dslug pslug : String)
    (body : AreaPatchInput) (cur : RawRecord) (gp : SMultiPolygon)
    (hl : s.loaded = true) (hne : s.areasData ≠ []) (hro : s.writable = false)
    (hv : areaInputValid a = true)
    (hd : dictHas s.areasData dslug = true)
    (hcur : dictGet s.areasData pslug = some cur)
    (hbp : build_geometry (mergeRecord pslug cur body).polygons = .ok gp) :
    (∃ gu, build_geometry a.modelDump.polygons = .ok gu ∧
      upsert s a = ⟨.error .persistenceFailure,
        { s with areasData := dictSet s.areasData a.slug a.modelDump
                 geometries := dictSet s.geometries a.slug gu }⟩) ∧
    patch s pslug body = ⟨.error .persistenceFailure,
      (let newSlug := (body.slug).getD pslug
       let s2 := { s with
         areasData :=
           dictSet s.areasData newSlug (mergeRecord pslug cur body)
         geometries := dictSet s.geometries newSlug gp }
       if newSlug != pslug then
         { s2 with areasData := dictDel s2.areasData pslug
                   geometries := dictDel s2.geometries pslug }
       else s2)⟩ ∧
    delete s dslug = ⟨.error .persistenceFailure,
      { s with areasData := dictDel s.areasData dslug
               geometries := dictDel s.geometries dslug }⟩ := by
  obtain ⟨gu, hgu⟩ := build_geometry_ok a hv
  refine ⟨⟨gu, hgu, ?_⟩, ?_, ?_⟩
  · simp [upsert, ensure_loaded_noop s hl hne, hgu, upload_raw_areas, hro]
  · cases hrn : ((body.slug).getD pslug != pslug) <;>
      simp [patch, ensure_loaded_noop s hl hne, hcur, hbp,
        upload_raw_areas, hro, hrn]
  · simp [delete, ensure_loaded_noop s hl hne, hd, upload_raw_areas, hro]

/-- Witness for C2: the amended theorem applied to the concrete read-only
repository `roState`, upserting `wArea`, patching `sq` with the renaming
body `renamePatch` (slug `sq` becomes `b`, so the in-memory mutation both
installs the new slug and drops the old one), and deleting `sq`. -/
theorem mutations_reflect_change_on_persist_failure_witness :
    (∃ gu, build_geometry wArea.modelDump.polygons = .ok gu ∧
      upsert roState wArea = ⟨.error .persistenceFailure,
        { roState with
            areasData := dictSet roState.areasData wArea.slug wArea.modelDump
            geometries := dictSet roState.geometries wArea.slug gu }⟩) ∧
    patch roState "sq" renamePatch = ⟨.error .persistenceFailure,
      (let newSlug := (renamePatch.slug).getD "sq"
       let s2 := { roState with
         areasData :=
           dictSet roState.areasData newSlug
             (mergeRecord "sq" sqRecord renamePatch)
         geometries := dictSet roState.geometries newSlug sqGeom }
       if newSlug != "sq" then
         { s2 with areasData := dictDel s2.areasData "sq"
                   geometries := dictDel s2.geometries "sq" }
       else s2)⟩ ∧
    delete roState "sq" = ⟨.error .persistenceFailure,
      { roState with
          areasData := dictDel roState.areasData "sq"
          geometries := dictDel roState.geometries "sq" }⟩ :=
  mutations_reflect_change_on_persist_failure roState wArea "sq" "sq"
    renamePatch sqRecord sqGeom rfl (List.cons_ne_nil _ _) rfl (by decide)
    rfl rfl rfl

/-- Claim C3, code bug: on a repository holding the square area `sq` and a
request for `["sq"]` with an inside target, `analyze` does not return a
per-slug result at all — it raises a pydantic `ValidationError`, because
the loop constructs `AreaResult` without its required `slug` and `name`
fields (and would subsequently pass a dict where `AnalysisResponse.results`
requires a list). -/
theorem analyze_found_area_raises :
    analyze readyState insideReq =
      ⟨.error .validationMissingFields, readyState⟩ := by
  norm_num [analyze, analyzeLoop, insideReq, pyDedup, get_geometry, get_raw,
    ensure_loaded, readyState, dictGet, List.find?, validateAreaResult,
    analyzeIsIn, shContains, shTouches, sqGeom, classifyPoly, onRing,
    insideRing, ringSegments, sqPoly, onSeg, crossesRay, List.filter,
    List.any]

/-- Counterexample for C4: the loop does accumulate exactly one message for
the unknown slug, but the message is the source's Portuguese
`"Area '<slug>' nao encontrada."`, not the claim's English
`"Area '<slug>' not found."`; and the call then fails to construct the
response (the results dict is rejected for the `list[...]` field), so
`analyze` with `areas=["missing"]` does not return the claimed
`results = [] / errors = [...]` value. -/
theorem analyze_missing_cx :
    (analyzeLoop ⟨2, 2⟩ readyState ["missing"] [] []).result =
        .ok ([], [notFoundMsg "missing"]) ∧
    notFoundMsg "missing" ≠ specNotFoundMsg "missing" ∧
    analyze readyState missingReq =
      ⟨.error .validationListType, readyState⟩ := by
  refine ⟨?_, by decide, ?_⟩
  · norm_num [analyzeLoop, get_geometry, ensure_loaded, readyState, dictGet,
      List.find?, show (("sq" == "missing") = false) from by decide]
  · norm_num [analyze, analyzeLoop, missingReq, pyDedup, get_geometry,
      ensure_loaded, readyState, dictGet, List.find?,
      validateAnalysisResponse,
      show (("sq" == "missing") = false) from by decide]

/-- Claim C4 as amended: for every candidate slug whose compiled geometry
is absent, the loop of `analyze` appends exactly the string
`"Area '<slug>' nao encontrada."` and continues with the remaining
candidates without aborting the batch; with `areas=["missing"]` and no
such area, the loop yields no results and exactly that one error message —
after which `analyze` raises a validation error constructing the response
model instead of returning them. -/
theorem analyze_missing_amended :
    (∀ (s : RepoState) (t : PointInput) (slug : String) (rest : List String)
      (results : PyDict AreaResult) (errors : List String),
      s.loaded = true → s.areasData ≠ [] →
      dictGet s.geometries slug = none →
      analyzeLoop t s (slug :: rest) results errors =
        analyzeLoop t s rest results (errors ++ [notFoundMsg slug])) ∧
    (analyzeLoop ⟨2, 2⟩ readyState ["missing"] [] []).result =
        .ok ([], [notFoundMsg "missing"]) ∧
    analyze readyState missingReq =
      ⟨.error .validationListType, readyState⟩ := by
  refine ⟨?_, ?_, ?_⟩
  · intro s t slug rest results errors hl hne habs
    simp [analyzeLoop, get_geometry, ensure_loaded_noop s hl hne, habs]
  · norm_num [analyzeLoop, get_geometry, ensure_loaded, readyState, dictGet,
      List.find?, show (("sq" == "missing") = false) from by decide]
  · norm_num [analyze, analyzeLoop, missingReq, pyDedup, get_geometry,
      ensure_loaded, readyState, dictGet, List.find?,
      validateAnalysisResponse,
      show (("sq" == "missing") = false) from by decide]

/-- Witness for C4: the amended loop step applied to the concrete
repository `readyState` and the absent slug `nope`. -/
theorem analyze_missing_amended_witness :
    analyzeLoop ⟨2, 2⟩ readyState ["nope"] [] [] =
      analyzeLoop ⟨2, 2⟩ readyState [] [] [notFoundMsg "nope"] :=
  analyze_missing_amended.1 readyState ⟨2, 2⟩ "nope" [] [] [] rfl
    (List.cons_ne_nil _ _) rfl

/-- Claim C5: on a hydrated repository, `patch_area` fails with 409
Conflict when the patch renames to a different, already-present slug, and
with 404 Not Found when the patched slug does not exist; in both failure
cases the repository state (raw mapping and geometry cache) is returned
unchanged. -/
theorem patch_conflict_notfound (s : RepoState) (slug : String)
    (body : AreaPatchInput) (hl : s.loaded = true) (hne : s.areasData ≠ []) :
    (∀ v, body.slug = some v → v ≠ "" → v ≠ slug →
      dictHas s.areasData slug = true → dictHas s.areasData v = true →
      patch_area s slug body = ⟨.error .httpConflict, s⟩) ∧
    (dictHas s.areasData slug = false →
      patch_area s slug body = ⟨.error .httpNotFound, s⟩) := by
  have hel := ensure_loaded_noop s hl hne
  constructor
  · intro v hv hvne hvs hhs hhv
    simp [patch_area, existsSlug, hel, hhs, hv, optStrTruthy, hvne, hvs, hhv]
  · intro hhs
    simp [patch_area, existsSlug, hel, hhs]

/-- Witness for C5: `patch_conflict_notfound` applied to the concrete
two-area repository — renaming `sq` to the existing `b` yields 409 with the
state unchanged, and patching the unknown slug `zz` yields 404 with the
state unchanged. -/
theorem patch_conflict_notfound_witness :
    patch_area twoState "sq" renamePatch = ⟨.error .httpConflict, twoState⟩ ∧
    patch_area twoState "zz" renamePatch = ⟨.error .httpNotFound, twoState⟩ :=
  ⟨(patch_conflict_notfound twoState "sq" renamePatch rfl
      (List.cons_ne_nil _ _)).1 "b" rfl (by decide) (by decide) rfl rfl,
    (patch_conflict_notfound twoState "zz" renamePatch rfl
      (List.cons_ne_nil _ _)).2 rfl⟩

/-- Counterexample for C6: the hydration path compiles geometry from
stored input without the claimed checks — a record whose only ring has 3
positions (fewer than 4) with longitudes above 180 hydrates without any
`InvalidGeometry` error, installing a compiled geometry for it, and the
build also accepts an empty polygon list. -/
theorem hydration_compiles_invalid_ring :
    badRing.length < 4 ∧
    (∃ pos ∈ badRing, ∃ lng lat rest, pos = lng :: lat :: rest ∧ 180 < lng) ∧
    ensure_loaded b0State =
      ⟨.ok (), { areasData := [("bad", badRecord)],
                 geometries := [("bad", badGeom)], loaded := true,
                 store := .content [("bad", badRecord)],
                 writable := true }⟩ ∧
    build_geometry [] = .ok [] := by
  refine ⟨by decide, ⟨[200, 0], by simp [badRing], 200, 0, [], rfl,
    by norm_num⟩, by rfl, rfl⟩

/-- Claim C6 as amended: polygon lists with a short ring, an out-of-range
position, or no polygons at all are rejected by pydantic validation with a
validation error on the API input paths — both the `upsert` body
(`AreaInput`) and the `patch` body (`AreaPatchInput`) — before any
geometry is compiled; the hydration path performs no such checks. -/
theorem invalid_polygons_rejected (ps : List PolygonInput)
    (hb : polygonsBad ps) :
    (∀ a : AreaInput, a.polygons = ps → areaInputValid a = false) ∧
    (∀ body : AreaPatchInput, body.polygons = some ps →
      areaPatchInputValid body = false) := by
  rcases hb with h0 | ⟨p, hp, ring, hring, hbad⟩
  · subst h0
    constructor
    · intro a ha
      simp [areaInputValid, ha]
    · intro body hbody
      simp [areaPatchInputValid, hbody]
  · have hpv : polygonInputValid p = false := by
      have hvr := validRing_false_of_bad ring hbad
      simp [polygonInputValid,
        all_false_of_mem validRing p.coordinates ring hring hvr]
    have hfall : ps.all polygonInputValid = false :=
      all_false_of_mem polygonInputValid ps p hp hpv
    constructor
    · intro a ha
      simp [areaInputValid, ha, hfall]
    · intro body hbody
      simp [areaPatchInputValid, hbody, hfall]

/-- Witness for C6: `invalid_polygons_rejected` applied to the concrete
3-position ring input, on both the upsert body and the patch body. -/
theorem invalid_polygons_rejected_witness :
    areaInputValid shortArea = false ∧
    areaPatchInputValid shortPatch = false := by
  have hb : polygonsBad [shortPolygonInput] :=
    Or.inr ⟨shortPolygonInput, by simp, [[0, 0], [1, 0], [1, 1]],
      by simp [shortPolygonInput], Or.inl (by decide)⟩
  exact ⟨(invalid_polygons_rejected [shortPolygonInput] hb).1 shortArea rfl,
    (invalid_polygons_rejected [shortPolygonInput] hb).2 shortPatch rfl⟩

/-- Claim C7: the containment test `analyze` uses
(`contains(target) or touches(target)`) holds exactly when the point is
strictly inside or exactly on the boundary of some constituent polygon;
in particular a query point equal to a shell vertex is reported in, with
the reported distance short-circuited to 0. -/
theorem analyze_containment :
    (∀ (mp : SMultiPolygon) (p : Pt), analyzeIsIn mp p = true ↔
      ∃ poly ∈ mp, classifyPoly poly p = .inside ∨
        classifyPoly poly p = .boundary) ∧
    (∀ (mp : SMultiPolygon) (poly : SPolygon) (v : Pt), poly ∈ mp →
      v ∈ poly.shell →
      analyzeIsIn mp v = true ∧ analyzeDist mp v.2 v.1 = 0) := by
  have part1 : ∀ (mp : SMultiPolygon) (p : Pt), analyzeIsIn mp p = true ↔
      ∃ poly ∈ mp, classifyPoly poly p = .inside ∨
        classifyPoly poly p = .boundary := by
    intro mp p
    constructor
    · intro h
      rcases Bool.or_eq_true _ _ |>.mp h with hc | ht
      · obtain ⟨poly, hm, hin⟩ := List.any_eq_true.mp hc
        exact ⟨poly, hm, Or.inl (by simpa using hin)⟩
      · obtain ⟨hb, _⟩ := Bool.and_eq_true _ _ |>.mp ht
        obtain ⟨poly, hm, hbd⟩ := List.any_eq_true.mp hb
        exact ⟨poly, hm, Or.inr (by simpa using hbd)⟩
    · rintro ⟨poly, hm, hin | hbd⟩
      · exact Bool.or_eq_true _ _ |>.mpr (Or.inl
          (List.any_eq_true.mpr ⟨poly, hm, by simp [hin]⟩))
      · cases hsc : shContains mp p
        · refine Bool.or_eq_true _ _ |>.mpr (Or.inr ?_)
          refine Bool.and_eq_true _ _ |>.mpr ⟨?_, by simp [hsc]⟩
          exact List.any_eq_true.mpr ⟨poly, hm, by simp [hbd]⟩
        · exact Bool.or_eq_true _ _ |>.mpr (Or.inl hsc)
  refine ⟨part1, ?_⟩
  intro mp poly v hm hv
  have hbd := classifyPoly_boundary_of_mem_shell poly v hv
  have hin : analyzeIsIn mp v = true :=
    (part1 mp v).mpr ⟨poly, hm, Or.inr hbd⟩
  refine ⟨hin, ?_⟩
  have hveq : (v.1, v.2) = v := rfl
  simp [analyzeDist, hveq, hin]

/-- Witness for C7: `analyze_containment` applied to the square geometry
and the query point equal to its shell vertex `(0, 0)`. -/
theorem analyze_containment_witness :
    analyzeIsIn sqGeom (0, 0) = true ∧ analyzeDist sqGeom 0 0 = 0 :=
  analyze_containment.2 sqGeom sqPoly (0, 0) (by simp [sqGeom])
    (by simp [sqPoly])

/-- Claim C8: the Haversine distance of `geo_service._haversine`
(idealised over the reals) is symmetric under swapping the two points, and
the distance from a point to itself is 0. -/
theorem haversine_props :
    (∀ lat1 lng1 lat2 lng2 : ℝ,
      haversine lat1 lng1 lat2 lng2 = haversine lat2 lng2 lat1 lng1) ∧
    (∀ lat lng : ℝ, haversine lat lng lat lng = 0) := by
  constructor
  · intro lat1 lng1 lat2 lng2
    simp only [haversine]
    have h1 : Real.sin ((pyRadians lat2 - pyRadians lat1) / 2) ^ 2
        = Real.sin ((pyRadians lat1 - pyRadians lat2) / 2) ^ 2 := by
      rw [show (pyRadians lat2 - pyRadians lat1) / 2
          = -((pyRadians lat1 - pyRadians lat2) / 2) by ring, Real.sin_neg]
      ring
    have h2 : Real.sin ((pyRadians lng2 - pyRadians lng1) / 2) ^ 2
        = Real.sin ((pyRadians lng1 - pyRadians lng2) / 2) ^ 2 := by
      rw [show (pyRadians lng2 - pyRadians lng1) / 2
          = -((pyRadians lng1 - pyRadians lng2) / 2) by ring, Real.sin_neg]
      ring
    rw [h1, h2,
      mul_comm (Real.cos (pyRadians lat1)) (Real.cos (pyRadians lat2))]
  · intro lat lng
    simp only [haversine]
    simp [sub_self, Real.sin_zero, Real.sqrt_zero, Real.arcsin_zero]

/-- Claim C9: on a hydrated repository whose mapping has pairwise-distinct
keys (the defining invariant of a Python dict),
`find_slugs_by_agencias` returns a duplicate-free slug list — it is a
filtered selection of the mapping's keys. -/
theorem find_slugs_by_agencias_nodup (s : RepoState)
    (agencias : List String) (hl : s.loaded = true) (hne : s.areasData ≠ [])
    (hnd : (s.areasData.map Prod.fst).Nodup) :
    ∃ l, find_slugs_by_agencias s agencias = ⟨.ok l, s⟩ ∧ l.Nodup := by
  have hs : find_slugs_by_agencias s agencias =
      ⟨.ok ((s.areasData.filter (fun p =>
        agencias.any (fun a =>
          pyNormalize a == pyNormalize (p.2.agencia.getD "")))).map
        Prod.fst), s⟩ := by
    simp [find_slugs_by_agencias, ensure_loaded_noop s hl hne]
  exact ⟨_, hs, ((List.filter_sublist _).map Prod.fst).nodup hnd⟩

/-- Witness for C9: `find_slugs_by_agencias_nodup` applied to the concrete
repository `readyState` and the query `["AG"]`. -/
theorem find_slugs_by_agencias_nodup_witness :
    ∃ l, find_slugs_by_agencias readyState ["AG"] = ⟨.ok l, readyState⟩ ∧
      l.Nodup :=
  find_slugs_by_agencias_nodup readyState ["AG"] rfl (List.cons_ne_nil _ _)
    (by simp [readyState])

/-- Claim C10: every request accepted by the pydantic validation feeding
`post_analyze` has its target latitude in `[-90, 90]` and longitude in
`[-180, 180]`, and a request with an out-of-range target coordinate is
rejected before `analyze` runs, leaving the repository untouched. -/
theorem post_analyze_target_range (raw : RawAnalysisRequest) :
    (∀ req, validateAnalysisRequest raw = .ok req →
      -90 ≤ req.target.lat ∧ req.target.lat ≤ 90 ∧
      -180 ≤ req.target.lng ∧ req.target.lng ≤ 180) ∧
    ((raw.targetLat < -90 ∨ 90 < raw.targetLat ∨
      raw.targetLng < -180 ∨ 180 < raw.targetLng) →
      ∀ s : RepoState, post_analyze s raw =
        ⟨.error .validationOutOfRange, s⟩) := by
  constructor
  · intro req hok
    simp only [validateAnalysisRequest] at hok
    split at hok
    · split at hok
      · split at hok
        · cases hok
        · rename_i hrange _ _
          simp only [Bool.and_eq_true, decide_eq_true_eq] at hrange
          cases hok
          exact ⟨hrange.1.1.1, hrange.1.1.2, hrange.1.2, hrange.2⟩
      · cases hok
    · cases hok
  · intro hbad s
    have hfalse : (decide (-90 ≤ raw.targetLat) &&
        decide (raw.targetLat ≤ 90) && decide (-180 ≤ raw.targetLng) &&
        decide (raw.targetLng ≤ 180)) = false := by
      rcases hbad with h | h | h | h <;>
        simp [decide_eq_false, not_le.mpr h, Bool.and_eq_false_iff]
    simp [post_analyze, validateAnalysisRequest, hfalse]

/-- Witness for C10: `post_analyze_target_range` applied to the concrete
in-range request `okRaw` and the concrete out-of-range request `badRaw`
(latitude 95). -/
theorem post_analyze_target_range_witness :
    (-90 ≤ okReq.target.lat ∧ okReq.target.lat ≤ 90 ∧
      -180 ≤ okReq.target.lng ∧ okReq.target.lng ≤ 180) ∧
    post_analyze readyState badRaw =
      ⟨.error .validationOutOfRange, readyState⟩ :=
  ⟨(post_analyze_target_range okRaw).1 okReq rfl,
    (post_analyze_target_range badRaw).2
      (Or.inr (Or.inl (by norm_num [badRaw]))) readyState⟩

end ScoreApi
